import Mathlib

/-!
Verification of the Revocation Registry Lifecycle Manager of
aries-cloudagent-python (`aries_cloudagent/revocation/models/issuer_rev_reg_record.py`).

The implementation module itself is not among the available source files (only its
test suite `tests/test_issuer_rev_reg_record.py` and the dependency-injection wiring
`config/default_context.py` are), so the record data model and its lifecycle
operations are modelled from the specification (spec.md §3, §4.1-4.5, §7), with the
tests used to fix concrete names (`generate_registry`, `send_def`, `send_entry`,
`set_tails_file_public_uri`, `set_state`, `mark_pending`, `clear_pending`,
`query_by_cred_def_id`, `query_by_pending`).

Asynchronous persistence (`save`) is orthogonal to every claim checked here, so
operations are shallowly embedded as pure functions from a record (plus the modelled
outcome of the external Issuer capability where relevant) to `Except RevocError`
of an updated record.
-/

/-- Modelled from the spec: the registry record states (spec.md §4.2), the code's
`STATE_INIT`, `STATE_GENERATED`, `STATE_POSTED`, `STATE_ACTIVE`, `STATE_FULL`. -/
inductive RevRegState where
  | init
  | generated
  | posted
  | active
  | full
deriving DecidableEq, Repr

/-- Modelled from the spec: numeric position of a state in the strictly forward
order INIT → GENERATED → POSTED → ACTIVE → FULL (spec.md §3 invariants). -/
def RevRegState.idx : RevRegState → Nat
  | .init => 0
  | .generated => 1
  | .posted => 2
  | .active => 3
  | .full => 4

/-- Modelled from the spec: the string tag under which a state is serialized
(the code's state constants are lowercase strings). -/
def RevRegState.tag : RevRegState → String
  | .init => "init"
  | .generated => "generated"
  | .posted => "posted"
  | .active => "active"
  | .full => "full"

/-- Modelled from the spec: parsing a serialized state tag back to a state. -/
def RevRegState.ofTag (s : String) : Option RevRegState :=
  if s = "init" then some .init
  else if s = "generated" then some .generated
  else if s = "posted" then some .posted
  else if s = "active" then some .active
  else if s = "full" then some .full
  else none

/-- Modelled from the spec: the issuer-defined error raised by the Issuer
capability (`IndyIssuerError` in `aries_cloudagent/indy/issuer.py`, absent from
the sources; spec.md §6: "fails with an issuer-defined error"). -/
structure IndyIssuerError where
  message : String
deriving DecidableEq, Repr

/-- Modelled from the spec: the error taxonomy of spec.md §7. The code raises a
single base type `RevocationError`; the spec distinguishes the three failure
kinds as RevocationStateError, RevocationIssuerError (wrapping the issuer-defined
cause) and RevocationValidationError, all instances of the base type, which this
inductive embeds as the three constructors of one type. -/
inductive RevocError where
  | stateError
  | issuerError (cause : IndyIssuerError)
  | validationError
deriving DecidableEq, Repr

/-- Modelled from the spec: the structured definition blob `revoc_reg_def`,
"containing at least a content hash (`tails_hash`) and a location pointer
(`tails_location`) for the tails artifact" (spec.md §3); the test data's
`{"value": {"tailsHash": ..., "tailsLocation": ...}}`. -/
structure RevRegDef where
  tailsHash : String
  tailsLocation : String
deriving DecidableEq, Repr

/-- Modelled from the spec: the Registry Record entity (spec.md §3), the code's
`IssuerRevRegRecord`. Fields absent until assigned are `Option`; `sequence_id`
is the opaque monotonically assigned creation-order key. -/
structure IssuerRevRegRecord where
  sequence_id : Nat
  issuer_did : Option String := none
  cred_def_id : Option String := none
  revoc_reg_id : Option String := none
  revoc_def_type : Option String := none
  revoc_reg_def : Option RevRegDef := none
  revoc_reg_entry : Option String := none
  tails_hash : Option String := none
  tails_local_path : Option String := none
  tails_public_uri : Option String := none
  state : RevRegState := .init
  pending_pub : List String := []
deriving DecidableEq, Repr

/-- Modelled from the spec: record creation by an issuing workflow — "created in
INIT" with `sequence_id` "monotonically assigned at creation" (spec.md §3). -/
def IssuerRevRegRecord.create (seq : Nat) (did credDefId : Option String) :
    IssuerRevRegRecord :=
  { sequence_id := seq, issuer_did := did, cred_def_id := credDefId }

/-- Modelled from the spec: the record ordering — "Records are totally ordered by
`sequence_id`" (spec.md §3), the code's `__lt__`. -/
def IssuerRevRegRecord.lt (a b : IssuerRevRegRecord) : Bool :=
  a.sequence_id < b.sequence_id

/-- Modelled from the spec: the outcome of the Issuer capability call
`create_and_store_revocation_registry` (spec.md §6): success yields
`(revoc_reg_id, revoc_reg_def_json, revoc_reg_entry_json)`, failure is an
issuer-defined error. -/
inductive IssuerResult where
  | ok (revoc_reg_id : String) (defn : RevRegDef) (entry : String)
  | err (e : IndyIssuerError)
deriving DecidableEq, Repr

/-- Modelled from the spec: the Tails Artifact Coordinator's canonical local
path, derived "deterministically from the issuer's local client directory, the
`revoc_reg_id`, and `tails_hash`" (spec.md §4.3); the test checks
`join(indy_client_dir(join("tails", rev_reg_id)), tails_hash)`. -/
def tailsLocalPath (clientDir revocRegId tailsHash : String) : String :=
  clientDir ++ "/tails/" ++ revocRegId ++ "/" ++ tailsHash

/-- Modelled from the spec: whether the first list extends the second, used to
test a URI for an http/https scheme on its character sequence. -/
def listStartsWith : List Char → List Char → Bool
  | _, [] => true
  | [], _ :: _ => false
  | c :: cs, d :: ds => c = d && listStartsWith cs ds

/-- Modelled from the spec: URI validation of the Tails Artifact Coordinator —
"rejects URIs that are not absolute `http`/`https` addresses" (spec.md §4.3):
the location must carry an http/https scheme followed by a non-empty rest. -/
def isAbsoluteHttpUri (uri : String) : Bool :=
  (listStartsWith uri.data "http://".data && "http://".length < uri.length)
    || (listStartsWith uri.data "https://".data && "https://".length < uri.length)

/-- Modelled from the spec: the `generate` operation (spec.md §4.2), the code's
`generate_registry`. Valid only from INIT, else RevocationStateError; an Issuer
capability failure surfaces as RevocationIssuerError wrapping the issuer-defined
cause with no state change (spec.md §7); on success it populates `revoc_reg_id`,
`revoc_reg_def`, `revoc_reg_entry`, `tails_hash` (extracted from the returned
definition) and the canonical `tails_local_path`, and moves to GENERATED. -/
def IssuerRevRegRecord.generate_registry (rec : IssuerRevRegRecord)
    (issuer : IssuerResult) (clientDir : String) :
    Except RevocError IssuerRevRegRecord :=
  if rec.state ≠ .init then
    .error .stateError
  else
    match issuer with
    | .err e => .error (.issuerError e)
    | .ok rid d entry =>
        .ok { rec with
              state := .generated
              revoc_reg_id := some rid
              revoc_reg_def := some d
              revoc_reg_entry := some entry
              tails_hash := some d.tailsHash
              tails_local_path := some (tailsLocalPath clientDir rid d.tailsHash) }

/-- Modelled from the spec: the `set_public_uri` operation (spec.md §4.2), the
code's `set_tails_file_public_uri`. Fails with RevocationStateError if no
definition exists yet — valid only from "any state with a definition already
assigned" — and with RevocationValidationError if the location is not an
absolute http/https address; on success stores `tails_public_uri` and rewrites
the location pointer inside `revoc_reg_def`, leaving the state unchanged. -/
def IssuerRevRegRecord.set_tails_file_public_uri (rec : IssuerRevRegRecord)
    (uri : String) : Except RevocError IssuerRevRegRecord :=
  match rec.revoc_reg_def with
  | none => .error .stateError
  | some d =>
      if isAbsoluteHttpUri uri then
        .ok { rec with
              tails_public_uri := some uri
              revoc_reg_def := some { d with tailsLocation := uri } }
      else
        .error .validationError

/-- Modelled from the spec: the `publish_definition` operation (spec.md §4.2),
the code's `send_def`. Valid only from GENERATED, else RevocationStateError;
writes `revoc_reg_def` to the ledger and moves to POSTED. -/
def IssuerRevRegRecord.send_def (rec : IssuerRevRegRecord) :
    Except RevocError IssuerRevRegRecord :=
  if rec.state = .generated then
    .ok { rec with state := .posted }
  else
    .error .stateError

/-- Modelled from the spec: the `publish_entry` operation (spec.md §4.2), the
code's `send_entry`. Valid only from POSTED, else RevocationStateError; writes
`revoc_reg_entry` to the ledger and moves to ACTIVE. -/
def IssuerRevRegRecord.send_entry (rec : IssuerRevRegRecord) :
    Except RevocError IssuerRevRegRecord :=
  if rec.state = .posted then
    .ok { rec with state := .active }
  else
    .error .stateError

/-- Modelled from the spec: the `mark_full` operation (spec.md §4.2), reached in
the code through `set_state` defaulting to STATE_FULL. Valid only from ACTIVE,
else RevocationStateError; moves to FULL. -/
def IssuerRevRegRecord.mark_full (rec : IssuerRevRegRecord) :
    Except RevocError IssuerRevRegRecord :=
  if rec.state = .active then
    .ok { rec with state := .full }
  else
    .error .stateError

/-- Modelled from the spec: direct assignment of the `state` attribute, as the
test performs with `rec_full.state = IssuerRevRegRecord.STATE_INIT` — a plain
attribute write on the record, subject to no precondition. -/
def IssuerRevRegRecord.set_state_direct (rec : IssuerRevRegRecord)
    (s : RevRegState) : IssuerRevRegRecord :=
  { rec with state := s }

/-- Modelled from the spec: `mark_pending(token)` of the Pending Revocation
Tracker (spec.md §4.1) — "appends `token` to `pending_pub` if absent;
idempotent for repeated identical tokens". -/
def IssuerRevRegRecord.mark_pending (rec : IssuerRevRegRecord) (token : String) :
    IssuerRevRegRecord :=
  if token ∈ rec.pending_pub then rec
  else { rec with pending_pub := rec.pending_pub ++ [token] }

/-- Modelled from the spec: `clear_pending(tokens)` of the Pending Revocation
Tracker (spec.md §4.1) — a non-empty `tokens` removes exactly those tokens
(absent ones ignored); an empty `tokens` clears `pending_pub` unconditionally. -/
def IssuerRevRegRecord.clear_pending (rec : IssuerRevRegRecord)
    (tokens : List String) : IssuerRevRegRecord :=
  if tokens.isEmpty then
    { rec with pending_pub := [] }
  else
    { rec with pending_pub := rec.pending_pub.filter (fun t => ¬ t ∈ tokens) }

/-- Modelled from the spec: `find_by_cred_def(cred_def_id, state)` of the Record
Query Service (spec.md §4.5), the code's `query_by_cred_def_id` — all records
for a credential definition filtered by state. -/
def query_by_cred_def_id (records : List IssuerRevRegRecord)
    (credDefId : String) (st : RevRegState) : List IssuerRevRegRecord :=
  records.filter (fun r => r.cred_def_id = some credDefId ∧ r.state = st)

/-- Modelled from the spec: `find_pending()` of the Record Query Service
(spec.md §4.1, §4.5), the code's `query_by_pending` — all records whose
`pending_pub` is non-empty. -/
def query_by_pending (records : List IssuerRevRegRecord) :
    List IssuerRevRegRecord :=
  records.filter (fun r => ¬ r.pending_pub.isEmpty)

/-- Modelled from the spec: `find_by_id(revoc_reg_id)` of the Record Query
Service (spec.md §4.5), the code's `retrieve_by_revoc_reg_id`. -/
def retrieve_by_revoc_reg_id (records : List IssuerRevRegRecord)
    (revocRegId : String) : Option IssuerRevRegRecord :=
  records.find? (fun r => r.revoc_reg_id = some revocRegId)

/-- Modelled from the spec: the serialized (persisted) form of a record, with
the state stored under its string tag; the code's `serialize()` produces a
plain-data mapping of the same fields (spec.md §6: the Record Store "must
preserve the `sequence_id` total order across restarts"). -/
structure SerializedRecord where
  sequence_id : Nat
  issuer_did : Option String
  cred_def_id : Option String
  revoc_reg_id : Option String
  revoc_def_type : Option String
  revoc_reg_def : Option RevRegDef
  revoc_reg_entry : Option String
  tails_hash : Option String
  tails_local_path : Option String
  tails_public_uri : Option String
  state : String
  pending_pub : List String
deriving DecidableEq, Repr

/-- Modelled from the spec: the code's `serialize()`. -/
def IssuerRevRegRecord.serialize (rec : IssuerRevRegRecord) : SerializedRecord :=
  { sequence_id := rec.sequence_id
    issuer_did := rec.issuer_did
    cred_def_id := rec.cred_def_id
    revoc_reg_id := rec.revoc_reg_id
    revoc_def_type := rec.revoc_def_type
    revoc_reg_def := rec.revoc_reg_def
    revoc_reg_entry := rec.revoc_reg_entry
    tails_hash := rec.tails_hash
    tails_local_path := rec.tails_local_path
    tails_public_uri := rec.tails_public_uri
    state := rec.state.tag
    pending_pub := rec.pending_pub }

/-- Modelled from the spec: the code's `deserialize()`; fails on an unknown
state tag. -/
def IssuerRevRegRecord.deserialize (d : SerializedRecord) :
    Option IssuerRevRegRecord :=
  match RevRegState.ofTag d.state with
  | none => none
  | some st =>
      some { sequence_id := d.sequence_id
             issuer_did := d.issuer_did
             cred_def_id := d.cred_def_id
             revoc_reg_id := d.revoc_reg_id
             revoc_def_type := d.revoc_def_type
             revoc_reg_def := d.revoc_reg_def
             revoc_reg_entry := d.revoc_reg_entry
             tails_hash := d.tails_hash
             tails_local_path := d.tails_local_path
             tails_public_uri := d.tails_public_uri
             state := st
             pending_pub := d.pending_pub }

/-- Modelled from the spec: the five lifecycle operations of spec.md §4.2 as one
syntactic type, each carrying the inputs the operation consumes. -/
inductive LifecycleOp where
  | generateOp (issuer : IssuerResult) (clientDir : String)
  | setPublicUri (uri : String)
  | publishDef
  | publishEntry
  | markFull
deriving DecidableEq, Repr

/-- Modelled from the spec: dispatch of a lifecycle operation to its
implementation. -/
def applyOp (op : LifecycleOp) (rec : IssuerRevRegRecord) :
    Except RevocError IssuerRevRegRecord :=
  match op with
  | .generateOp issuer clientDir => rec.generate_registry issuer clientDir
  | .setPublicUri uri => rec.set_tails_file_public_uri uri
  | .publishDef => rec.send_def
  | .publishEntry => rec.send_entry
  | .markFull => rec.mark_full

/-- Modelled from the spec: a failed operation "leaves the record unchanged"
(spec.md §4.2, §7), so running an operation keeps the prior record on error and
reports the error alongside. -/
def runOp (op : LifecycleOp) (rec : IssuerRevRegRecord) :
    IssuerRevRegRecord × Option RevocError :=
  match applyOp op rec with
  | .ok r => (r, none)
  | .error e => (rec, some e)

/-- Modelled from the spec: running a sequence of lifecycle operations, each
failed operation leaving the record as it was. -/
def runOps (ops : List LifecycleOp) (rec : IssuerRevRegRecord) :
    IssuerRevRegRecord :=
  match ops with
  | [] => rec
  | op :: rest => runOps rest (runOp op rec).1

/-- Modelled from the spec: the set of valid source states of each operation
(the "Valid from" column of spec.md §4.2); for `set_public_uri` the spec defines
it as "any state with a definition already assigned", a predicate on the record
rather than on the bare state. -/
def validFrom (op : LifecycleOp) (rec : IssuerRevRegRecord) : Prop :=
  match op with
  | .generateOp _ _ => rec.state = .init
  | .setPublicUri _ => rec.revoc_reg_def ≠ none
  | .publishDef => rec.state = .generated
  | .publishEntry => rec.state = .posted
  | .markFull => rec.state = .active

instance (op : LifecycleOp) (rec : IssuerRevRegRecord) :
    Decidable (validFrom op rec) := by
  unfold validFrom
  cases op <;> infer_instance

/-- Sample definition blob, following the test data of
`test_issuer_rev_reg_record.py`. -/
def sampleDef : RevRegDef :=
  { tailsHash := "59NY25UEV8a5CzNkXFQMppwofUxtYtf4FDp1h9xgeLcK"
    tailsLocation := "point at infinity" }

/-- Sample freshly created record, following the test data. -/
def sampleInit : IssuerRevRegRecord :=
  IssuerRevRegRecord.create 0 (some "55GkHamhTU1ZbTbV2ab9DE")
    (some "55GkHamhTU1ZbTbV2ab9DE:3:CL:1234:default")

/-- Sample record after a successful generation from `sampleInit`. -/
def sampleGenerated : IssuerRevRegRecord :=
  { sampleInit with
    state := .generated
    revoc_reg_id := some "rr-id"
    revoc_reg_def := some sampleDef
    revoc_reg_entry := some "entry"
    tails_hash := some sampleDef.tailsHash
    tails_local_path := some (tailsLocalPath "cdir" "rr-id" sampleDef.tailsHash) }

/-- C1: every lifecycle operation (generate, set_public_uri, publish_definition,
publish_entry, mark_full) invoked on a record outside its valid source states
fails with RevocationStateError and leaves every field of the record unchanged;
in particular generate fails on any non-INIT record, publish_definition on any
non-GENERATED record, and publish_entry on any non-POSTED record. -/
theorem invalid_source_state_fails (op : LifecycleOp) (rec : IssuerRevRegRecord)
    (h : ¬ validFrom op rec) :
    runOp op rec = (rec, some RevocError.stateError) := by
  cases op with
  | generateOp issuer clientDir =>
      simp only [validFrom] at h
      simp [runOp, applyOp, IssuerRevRegRecord.generate_registry, h]
  | setPublicUri uri =>
      simp only [validFrom, ne_eq, not_not] at h
      simp [runOp, applyOp, IssuerRevRegRecord.set_tails_file_public_uri, h]
  | publishDef =>
      simp only [validFrom] at h
      simp [runOp, applyOp, IssuerRevRegRecord.send_def, h]
  | publishEntry =>
      simp only [validFrom] at h
      simp [runOp, applyOp, IssuerRevRegRecord.send_entry, h]
  | markFull =>
      simp only [validFrom] at h
      simp [runOp, applyOp, IssuerRevRegRecord.mark_full, h]

/-- C1 witness: publish_definition on a fresh INIT record fails with
RevocationStateError and changes nothing. -/
theorem invalid_source_state_fails_witness :
    ¬ validFrom .publishDef sampleInit ∧
    runOp .publishDef sampleInit = (sampleInit, some RevocError.stateError) :=
  ⟨by decide, invalid_source_state_fails .publishDef sampleInit (by decide)⟩

/-- Helper: a successful lifecycle operation moves the state forward by zero or
one position in the INIT → GENERATED → POSTED → ACTIVE → FULL order. -/
theorem applyOp_ok_state (op : LifecycleOp) (rec rec' : IssuerRevRegRecord)
    (h : applyOp op rec = .ok rec') :
    rec.state.idx ≤ rec'.state.idx ∧ rec'.state.idx ≤ rec.state.idx + 1 := by
  cases op with
  | generateOp issuer clientDir =>
      simp only [applyOp, IssuerRevRegRecord.generate_registry] at h
      split at h
      · cases h
      · next hst =>
          have hinit : rec.state = RevRegState.init := not_not.mp hst
          cases issuer with
          | err e => cases h
          | ok rid d entry =>
              cases h
              simp [hinit, RevRegState.idx]
  | setPublicUri uri =>
      simp only [applyOp, IssuerRevRegRecord.set_tails_file_public_uri] at h
      split at h
      · cases h
      · split at h
        · cases h
          simp
        · cases h
  | publishDef =>
      simp only [applyOp, IssuerRevRegRecord.send_def] at h
      split at h
      · next hst =>
          cases h
          simp [hst, RevRegState.idx]
      · cases h
  | publishEntry =>
      simp only [applyOp, IssuerRevRegRecord.send_entry] at h
      split at h
      · next hst =>
          cases h
          simp [hst, RevRegState.idx]
      · cases h
  | markFull =>
      simp only [applyOp, IssuerRevRegRecord.mark_full] at h
      split at h
      · next hst =>
          cases h
          simp [hst, RevRegState.idx]
      · cases h

/-- Helper: over any sequence of lifecycle operations (failed ones leaving the
record unchanged) the state position never decreases. -/
theorem runOps_state_mono : ∀ (ops : List LifecycleOp) (rec : IssuerRevRegRecord),
    rec.state.idx ≤ (runOps ops rec).state.idx
  | [], _ => le_refl _
  | op :: rest, rec => by
      have h1 : rec.state.idx ≤ (runOp op rec).1.state.idx := by
        cases hop : applyOp op rec with
        | error e => simp [runOp, hop]
        | ok r =>
            simp only [runOp, hop]
            exact (applyOp_ok_state op rec r hop).1
      exact le_trans h1 (runOps_state_mono rest (runOp op rec).1)

/-- C2: the record's state only ever advances in the strict order
INIT → GENERATED → POSTED → ACTIVE → FULL: across any sequence of lifecycle
operations the state position never decreases, and a successful operation never
moves the state backward nor forward by more than one position. -/
theorem state_strictly_forward :
    (∀ (ops : List LifecycleOp) (rec : IssuerRevRegRecord),
        rec.state.idx ≤ (runOps ops rec).state.idx) ∧
    (∀ (op : LifecycleOp) (rec rec' : IssuerRevRegRecord),
        applyOp op rec = .ok rec' →
        rec.state.idx ≤ rec'.state.idx ∧ rec'.state.idx ≤ rec.state.idx + 1) :=
  ⟨runOps_state_mono, fun op rec rec' h => applyOp_ok_state op rec rec' h⟩

/-- C2 witness: a successful generate on a fresh record advances the state
exactly one position. -/
theorem state_strictly_forward_witness :
    sampleInit.state.idx ≤ sampleGenerated.state.idx ∧
    sampleGenerated.state.idx ≤ sampleInit.state.idx + 1 :=
  state_strictly_forward.2 (.generateOp (.ok "rr-id" sampleDef "entry") "cdir")
    sampleInit sampleGenerated rfl

/-- C3: if the Issuer capability fails during generate, the operation errors
with RevocationIssuerError wrapping the issuer-defined cause and the record is
returned unchanged in every field (state still INIT, `revoc_reg_id` untouched),
so the operation is atomic on failure and safely retryable. -/
theorem generate_issuer_failure_atomic (rec : IssuerRevRegRecord)
    (e : IndyIssuerError) (clientDir : String) (h : rec.state = .init) :
    rec.generate_registry (.err e) clientDir =
      .error (RevocError.issuerError e) ∧
    runOp (.generateOp (.err e) clientDir) rec =
      (rec, some (RevocError.issuerError e)) := by
  constructor
  · simp [IssuerRevRegRecord.generate_registry, h]
  · simp [runOp, applyOp, IssuerRevRegRecord.generate_registry, h]

/-- C3 witness: the failing-issuer generate on the fresh sample record. -/
theorem generate_issuer_failure_atomic_witness :
    sampleInit.generate_registry (.err ⟨"Not this time"⟩) "cdir" =
      .error (RevocError.issuerError ⟨"Not this time"⟩) ∧
    runOp (.generateOp (.err ⟨"Not this time"⟩) "cdir") sampleInit =
      (sampleInit, some (RevocError.issuerError ⟨"Not this time"⟩)) :=
  generate_issuer_failure_atomic sampleInit ⟨"Not this time"⟩ "cdir" rfl

/-- Helper: a cred-def/state query over a store whose head matches and whose
remaining records do not returns exactly the head. -/
theorem query_by_cred_def_id_single (r : IssuerRevRegRecord)
    (rs : List IssuerRevRegRecord) (cd : String) (st : RevRegState)
    (hr : r.cred_def_id = some cd ∧ r.state = st)
    (hrs : ∀ x ∈ rs, ¬ (x.cred_def_id = some cd ∧ x.state = st)) :
    query_by_cred_def_id (r :: rs) cd st = [r] := by
  unfold query_by_cred_def_id
  rw [List.filter_cons, if_pos (decide_eq_true hr), List.filter_eq_nil_iff.mpr]
  intro x hx
  simpa using hrs x hx

/-- C4: driving a record created with `cred_def_id = D` through a successful
generate, publish_definition and publish_entry yields GENERATED (with
`tails_hash` the hash embedded in the issuer-returned definition and
`tails_local_path` derived deterministically from the client directory,
`revoc_reg_id` and `tails_hash`), then POSTED, then ACTIVE, and
`find_by_cred_def(D, ACTIVE)` over a store in which no other record is ACTIVE
for `D` returns exactly this one record. -/
theorem end_to_end_lifecycle (seq : Nat) (did : Option String)
    (credDefId rid entry clientDir : String) (d : RevRegDef)
    (others : List IssuerRevRegRecord)
    (hothers : ∀ x ∈ others,
      ¬ (x.cred_def_id = some credDefId ∧ x.state = RevRegState.active)) :
    ∃ r1 r2 r3 : IssuerRevRegRecord,
      (IssuerRevRegRecord.create seq did (some credDefId)).generate_registry
          (.ok rid d entry) clientDir = .ok r1 ∧
      r1.state = .generated ∧
      r1.revoc_reg_id = some rid ∧
      r1.tails_hash = some d.tailsHash ∧
      r1.tails_local_path = some (tailsLocalPath clientDir rid d.tailsHash) ∧
      r1.send_def = .ok r2 ∧ r2.state = .posted ∧
      r2.send_entry = .ok r3 ∧ r3.state = .active ∧
      r3.cred_def_id = some credDefId ∧
      query_by_cred_def_id (r3 :: others) credDefId .active = [r3] := by
  refine ⟨_, _, _, rfl, rfl, rfl, rfl, rfl, rfl, rfl, rfl, rfl, rfl, ?_⟩
  exact query_by_cred_def_id_single _ others credDefId .active ⟨rfl, rfl⟩ hothers

/-- C4 witness: the end-to-end run at concrete inputs with an empty store of
other records. -/
theorem end_to_end_lifecycle_witness :
    ∃ r1 r2 r3 : IssuerRevRegRecord,
      (IssuerRevRegRecord.create 0 (some "did") "cd-id").generate_registry
          (.ok "rr-id" sampleDef "entry") "cdir" = .ok r1 ∧
      r1.state = .generated ∧
      r1.revoc_reg_id = some "rr-id" ∧
      r1.tails_hash = some sampleDef.tailsHash ∧
      r1.tails_local_path = some (tailsLocalPath "cdir" "rr-id" sampleDef.tailsHash) ∧
      r1.send_def = .ok r2 ∧ r2.state = .posted ∧
      r2.send_entry = .ok r3 ∧ r3.state = .active ∧
      r3.cred_def_id = some "cd-id" ∧
      query_by_cred_def_id (r3 :: []) "cd-id" .active = [r3] :=
  end_to_end_lifecycle 0 (some "did") "cd-id" "rr-id" "entry" "cdir" sampleDef []
    (by intro x hx; cases hx)

/-- C5: with a definition assigned, `set_tails_file_public_uri` rejects a
non-absolute location with RevocationValidationError leaving the record
unchanged, and accepts an absolute http/https location, setting
`tails_public_uri` and rewriting the `tailsLocation` pointer inside
`revoc_reg_def` to the same value; with no definition assigned it fails with
RevocationStateError; and concretely "dummy" is rejected while
"http://localhost/dummy" is accepted. -/
theorem set_public_uri_spec (rec : IssuerRevRegRecord) (uri : String) :
    (rec.revoc_reg_def = none →
      runOp (.setPublicUri uri) rec = (rec, some RevocError.stateError)) ∧
    (∀ d : RevRegDef, rec.revoc_reg_def = some d →
      (isAbsoluteHttpUri uri = false →
        runOp (.setPublicUri uri) rec = (rec, some RevocError.validationError)) ∧
      (isAbsoluteHttpUri uri = true →
        rec.set_tails_file_public_uri uri =
          .ok { rec with
                tails_public_uri := some uri
                revoc_reg_def := some { d with tailsLocation := uri } })) ∧
    isAbsoluteHttpUri "dummy" = false ∧
    isAbsoluteHttpUri "http://localhost/dummy" = true := by
  refine ⟨?_, ?_, by decide, by decide⟩
  · intro hnone
    simp [runOp, applyOp, IssuerRevRegRecord.set_tails_file_public_uri, hnone]
  · intro d hd
    constructor
    · intro huri
      simp [runOp, applyOp, IssuerRevRegRecord.set_tails_file_public_uri, hd, huri]
    · intro huri
      simp [IssuerRevRegRecord.set_tails_file_public_uri, hd, huri]

/-- C5 witness: the generated sample record rejects "dummy" and accepts
"http://localhost/dummy" rewriting the definition's location, and the fresh
sample record (no definition) fails with RevocationStateError. -/
theorem set_public_uri_spec_witness :
    (isAbsoluteHttpUri "dummy" = false →
      runOp (.setPublicUri "dummy") sampleGenerated =
        (sampleGenerated, some RevocError.validationError)) ∧
    (isAbsoluteHttpUri "http://localhost/dummy" = true →
      sampleGenerated.set_tails_file_public_uri "http://localhost/dummy" =
        .ok { sampleGenerated with
              tails_public_uri := some "http://localhost/dummy"
              revoc_reg_def :=
                some { sampleDef with tailsLocation := "http://localhost/dummy" } }) ∧
    runOp (.setPublicUri "dummy") sampleInit =
      (sampleInit, some RevocError.stateError) :=
  ⟨((set_public_uri_spec sampleGenerated "dummy").2.1 sampleDef rfl).1,
   ((set_public_uri_spec sampleGenerated "http://localhost/dummy").2.1
      sampleDef rfl).2,
   (set_public_uri_spec sampleInit "dummy").1 rfl⟩

/-- C6: marking pending tokens "1","2","3","4" on a record with no pending
tokens, then clearing ["1","2"], leaves `pending_pub == ["3","4"]` (exactly the
listed tokens removed); clearing with the empty list afterwards leaves
`pending_pub == []`; and `query_by_pending` returns the record exactly while
`pending_pub` is non-empty and omits it once empty. -/
theorem pending_scenario (rec : IssuerRevRegRecord) (h : rec.pending_pub = []) :
    ((((rec.mark_pending "1").mark_pending "2").mark_pending
        "3").mark_pending "4").pending_pub = ["1", "2", "3", "4"] ∧
    (((((rec.mark_pending "1").mark_pending "2").mark_pending
        "3").mark_pending "4").clear_pending ["1", "2"]).pending_pub
      = ["3", "4"] ∧
    ((((((rec.mark_pending "1").mark_pending "2").mark_pending
        "3").mark_pending "4").clear_pending ["1", "2"]).clear_pending
        []).pending_pub = [] ∧
    query_by_pending [(((rec.mark_pending "1").mark_pending "2").mark_pending
        "3").mark_pending "4"]
      = [(((rec.mark_pending "1").mark_pending "2").mark_pending
          "3").mark_pending "4"] ∧
    query_by_pending [((((rec.mark_pending "1").mark_pending "2").mark_pending
        "3").mark_pending "4").clear_pending ["1", "2"]]
      = [((((rec.mark_pending "1").mark_pending "2").mark_pending
          "3").mark_pending "4").clear_pending ["1", "2"]] ∧
    query_by_pending [(((((rec.mark_pending "1").mark_pending "2").mark_pending
        "3").mark_pending "4").clear_pending ["1", "2"]).clear_pending []]
      = [] := by
  have h4 : (((rec.mark_pending "1").mark_pending "2").mark_pending
      "3").mark_pending "4" = { rec with pending_pub := ["1", "2", "3", "4"] } := by
    simp [IssuerRevRegRecord.mark_pending, h]
  refine ⟨?_, ?_, ?_, ?_, ?_, ?_⟩ <;>
    rw [h4] <;>
    simp [IssuerRevRegRecord.clear_pending, query_by_pending]

/-- C6 witness: the clearing step on the fresh sample record. -/
theorem pending_scenario_witness :
    (((((sampleInit.mark_pending "1").mark_pending "2").mark_pending
        "3").mark_pending "4").clear_pending ["1", "2"]).pending_pub
      = ["3", "4"] :=
  (pending_scenario sampleInit rfl).2.1

/-- Helper: deserialization inverts serialization on every record. -/
theorem deserialize_serialize (r : IssuerRevRegRecord) :
    IssuerRevRegRecord.deserialize r.serialize = some r := by
  cases r with
  | mk seq did cdi rid rdt rdd rre th tlp tpu st pp =>
      cases st <;>
        simp [IssuerRevRegRecord.serialize, IssuerRevRegRecord.deserialize,
          RevRegState.tag, RevRegState.ofTag]

/-- C7: a record created earlier (smaller `sequence_id`) compares strictly
less-than one created later, and this ordering survives a
serialize/deserialize round trip. -/
theorem order_stable_under_roundtrip (a b : IssuerRevRegRecord)
    (h : a.sequence_id < b.sequence_id) :
    IssuerRevRegRecord.lt a b = true ∧
    ∃ a' b' : IssuerRevRegRecord,
      IssuerRevRegRecord.deserialize a.serialize = some a' ∧
      IssuerRevRegRecord.deserialize b.serialize = some b' ∧
      IssuerRevRegRecord.lt a' b' = true :=
  ⟨by simpa [IssuerRevRegRecord.lt] using h, a, b,
   deserialize_serialize a, deserialize_serialize b,
   by simpa [IssuerRevRegRecord.lt] using h⟩

/-- C7 witness: two concrete records created in sequence. -/
theorem order_stable_under_roundtrip_witness :
    IssuerRevRegRecord.lt sampleInit (IssuerRevRegRecord.create 1 none none)
      = true ∧
    ∃ a' b' : IssuerRevRegRecord,
      IssuerRevRegRecord.deserialize sampleInit.serialize = some a' ∧
      IssuerRevRegRecord.deserialize
        (IssuerRevRegRecord.create 1 none none).serialize = some b' ∧
      IssuerRevRegRecord.lt a' b' = true :=
  order_stable_under_roundtrip sampleInit (IssuerRevRegRecord.create 1 none none)
    (by decide)

/-- C8: `mark_pending` appends a token only if absent, is idempotent for
repeated identical tokens, and both pending operations preserve freedom from
duplicate tokens, so `pending_pub` never holds duplicates. -/
theorem mark_pending_idempotent (rec : IssuerRevRegRecord) (t : String)
    (h : rec.pending_pub.Nodup) :
    (rec.mark_pending t).mark_pending t = rec.mark_pending t ∧
    (t ∈ rec.pending_pub → rec.mark_pending t = rec) ∧
    (t ∉ rec.pending_pub →
      (rec.mark_pending t).pending_pub = rec.pending_pub ++ [t]) ∧
    (rec.mark_pending t).pending_pub.Nodup ∧
    (∀ ts : List String, (rec.clear_pending ts).pending_pub.Nodup) := by
  by_cases hm : t ∈ rec.pending_pub
  · refine ⟨?_, ?_, ?_, ?_, ?_⟩ <;>
      simp [IssuerRevRegRecord.mark_pending, IssuerRevRegRecord.clear_pending,
        hm, h]
    intro ts
    split
    · simp
    · exact h.filter _
  · refine ⟨?_, ?_, ?_, ?_, ?_⟩
    · simp [IssuerRevRegRecord.mark_pending, hm]
    · simp [hm]
    · simp [IssuerRevRegRecord.mark_pending, hm]
    · simp [IssuerRevRegRecord.mark_pending, hm, List.nodup_append, h]
    · intro ts
      simp only [IssuerRevRegRecord.clear_pending]
      split
      · simp
      · exact h.filter _

/-- C8 witness: idempotence of mark_pending at a concrete record and token. -/
theorem mark_pending_idempotent_witness :
    (sampleInit.mark_pending "1").mark_pending "1"
      = sampleInit.mark_pending "1" :=
  (mark_pending_idempotent sampleInit "1" (by decide)).1

/-- Helper: any error produced by a lifecycle operation is a state error, a
validation error, or an issuer error wrapping the cause of a failing generate
call. -/
theorem applyOp_error_shape (op : LifecycleOp) (rec : IssuerRevRegRecord)
    (e : RevocError) (h : applyOp op rec = .error e) :
    e = RevocError.stateError ∨ e = RevocError.validationError ∨
      ∃ cause : IndyIssuerError, e = RevocError.issuerError cause ∧
        ∃ clientDir : String, op = .generateOp (.err cause) clientDir := by
  cases op with
  | generateOp issuer clientDir =>
      simp only [applyOp, IssuerRevRegRecord.generate_registry] at h
      split at h
      · cases h
        exact Or.inl rfl
      · cases issuer with
        | err c =>
            cases h
            exact Or.inr (Or.inr ⟨c, rfl, clientDir, rfl⟩)
        | ok rid d entry => cases h
  | setPublicUri uri =>
      simp only [applyOp, IssuerRevRegRecord.set_tails_file_public_uri] at h
      split at h
      · cases h
        exact Or.inl rfl
      · split at h
        · cases h
        · cases h
          exact Or.inr (Or.inl rfl)
  | publishDef =>
      simp only [applyOp, IssuerRevRegRecord.send_def] at h
      split at h
      · cases h
      · cases h
        exact Or.inl rfl
  | publishEntry =>
      simp only [applyOp, IssuerRevRegRecord.send_entry] at h
      split at h
      · cases h
      · cases h
        exact Or.inl rfl
  | markFull =>
      simp only [applyOp, IssuerRevRegRecord.mark_full] at h
      split at h
      · cases h
      · cases h
        exact Or.inl rfl

/-- C9: every failure surfaced by a lifecycle operation is one of the three
kinds of the single RevocationError taxonomy — a state-precondition violation,
a public-URI validation failure, or an Issuer-capability failure — and in the
last case the issuer-defined IndyIssuerError reaches the caller wrapped as the
RevocationError-typed issuer error carrying it, never as the raw issuer type. -/
theorem failures_are_revocation_errors (op : LifecycleOp)
    (rec : IssuerRevRegRecord) (e : RevocError)
    (h : (runOp op rec).2 = some e) :
    e = RevocError.stateError ∨ e = RevocError.validationError ∨
      ∃ cause : IndyIssuerError, e = RevocError.issuerError cause ∧
        ∃ clientDir : String, op = .generateOp (.err cause) clientDir := by
  have herr : applyOp op rec = .error e := by
    cases hop : applyOp op rec with
    | ok r => simp [runOp, hop] at h
    | error er =>
        simp only [runOp, hop, Option.some.injEq] at h
        subst h
        rfl
  exact applyOp_error_shape op rec e herr

/-- C9 witness: the failing-issuer generate on the fresh sample record surfaces
the wrapped issuer error. -/
theorem failures_are_revocation_errors_witness :
    RevocError.issuerError ⟨"Not this time"⟩ = RevocError.stateError ∨
    RevocError.issuerError ⟨"Not this time"⟩ = RevocError.validationError ∨
    ∃ cause : IndyIssuerError,
      RevocError.issuerError ⟨"Not this time"⟩ = RevocError.issuerError cause ∧
      ∃ clientDir : String,
        LifecycleOp.generateOp (.err ⟨"Not this time"⟩) "cdir"
          = LifecycleOp.generateOp (.err cause) clientDir :=
  failures_are_revocation_errors
    (.generateOp (.err ⟨"Not this time"⟩) "cdir") sampleInit
    (RevocError.issuerError ⟨"Not this time"⟩) (by decide)

/-- Modelled from the spec: the state-machine invariant that a record still in
INIT has no definition assigned — `revoc_reg_def` is only populated by a
successful generate, which also leaves INIT (spec.md §4.2). -/
def initHasNoDef (rec : IssuerRevRegRecord) : Prop :=
  rec.state = .init → rec.revoc_reg_def = none

/-- Helper: every lifecycle operation preserves the INIT-has-no-definition
invariant. -/
theorem runOp_preserves_initHasNoDef (op : LifecycleOp)
    (rec : IssuerRevRegRecord) (h : initHasNoDef rec) :
    initHasNoDef (runOp op rec).1 := by
  cases hop : applyOp op rec with
  | error e => simpa [runOp, hop] using h
  | ok r =>
      simp only [runOp, hop]
      cases op with
      | generateOp issuer clientDir =>
          simp only [applyOp, IssuerRevRegRecord.generate_registry] at hop
          split at hop
          · cases hop
          · cases issuer with
            | err e => cases hop
            | ok rid d entry =>
                cases hop
                intro hst
                simp at hst
      | setPublicUri uri =>
          simp only [applyOp, IssuerRevRegRecord.set_tails_file_public_uri] at hop
          split at hop
          · cases hop
          · rename_i d heq
            split at hop
            · cases hop
              intro hst
              rw [h hst] at heq
              cases heq
            · cases hop
      | publishDef =>
          simp only [applyOp, IssuerRevRegRecord.send_def] at hop
          split at hop
          · cases hop
            intro hst
            simp at hst
          · cases hop
      | publishEntry =>
          simp only [applyOp, IssuerRevRegRecord.send_entry] at hop
          split at hop
          · cases hop
            intro hst
            simp at hst
          · cases hop
      | markFull =>
          simp only [applyOp, IssuerRevRegRecord.mark_full] at hop
          split at hop
          · cases hop
            intro hst
            simp at hst
          · cases hop

/-- Helper: the INIT-has-no-definition invariant holds after any sequence of
lifecycle operations from a record satisfying it. -/
theorem runOps_initHasNoDef (ops : List LifecycleOp) (rec : IssuerRevRegRecord)
    (h : initHasNoDef rec) : initHasNoDef (runOps ops rec) := by
  induction ops generalizing rec with
  | nil => exact h
  | cons op rest ih =>
      exact ih (runOp op rec).1 (runOp_preserves_initHasNoDef op rec h)

/-- C10: the record's state field is directly assignable to any value —
including backward from FULL to INIT — with no error and no other field
touched; the forward-only ordering lives only in the operations' preconditions,
so direct assignment can produce a state/field combination (INIT with a
definition assigned) that no sequence of lifecycle operations on a freshly
created record ever produces. -/
theorem state_directly_assignable :
    (∀ (rec : IssuerRevRegRecord) (s : RevRegState),
        (rec.set_state_direct s).state = s ∧
        (rec.set_state_direct s).revoc_reg_def = rec.revoc_reg_def ∧
        (rec.set_state_direct s).pending_pub = rec.pending_pub ∧
        (rec.set_state_direct s).sequence_id = rec.sequence_id) ∧
    ((sampleGenerated.set_state_direct .full).set_state_direct .init).state
        = .init ∧
    ¬ initHasNoDef
        ((sampleGenerated.set_state_direct .full).set_state_direct .init) ∧
    (∀ (seq : Nat) (did cdi : Option String) (ops : List LifecycleOp),
        initHasNoDef (runOps ops (IssuerRevRegRecord.create seq did cdi))) := by
  refine ⟨fun rec s => ⟨rfl, rfl, rfl, rfl⟩, rfl, ?_, ?_⟩
  · intro hinv
    exact absurd (hinv rfl) (by decide)
  · intro seq did cdi ops
    exact runOps_initHasNoDef ops _ (fun _ => rfl)

/-- C10 witness: backward direct assignment at the generated sample record,
and the invariant after the empty operation sequence on a fresh record. -/
theorem state_directly_assignable_witness :
    (sampleGenerated.set_state_direct .init).state = .init ∧
    initHasNoDef (runOps [] (IssuerRevRegRecord.create 0 none none)) :=
  ⟨(state_directly_assignable.1 sampleGenerated .init).1,
   state_directly_assignable.2.2.2 0 none none []⟩
